import Mathlib

/-!
Verification of the wgpu-experiments repository (src/lib.rs): a shallow
embedding of the render state machine (State) and the winit event loop in
run(), with theorems about resize, input, render, surface-error handling
and loop termination.
-/

namespace WgpuExp

/-- Mirror of winit's PhysicalSize with u32 fields; no arithmetic is ever
performed on the fields, so Nat is a faithful carrier. -/
structure PhysicalSize where
  width : Nat
  height : Nat
deriving DecidableEq

/-- The only present mode the program uses is Fifo. -/
inductive PresentMode
  | fifo
deriving DecidableEq

/-- The only alpha mode the program uses is Auto. -/
inductive CompositeAlphaMode
  | auto
deriving DecidableEq

/-- The only texture usage the program uses is RENDER_ATTACHMENT. -/
inductive TextureUsage
  | renderAttachment
deriving DecidableEq

/-- Mirror of wgpu::SurfaceConfiguration as built in State::new; texture
formats are opaque to the program, modelled as Nat identifiers. -/
structure SurfaceConfiguration where
  usage : TextureUsage
  format : Nat
  width : Nat
  height : Nat
  present_mode : PresentMode
  alpha_mode : CompositeAlphaMode
  view_formats : List Nat
  desired_maximum_frame_latency : Nat
deriving DecidableEq

/-- Mirror of the render pipeline built in State::new: entry points, the
colour target format taken from the surface configuration, and the (empty)
vertex buffer layout list. -/
structure RenderPipeline where
  vertex_entry : String
  frag_entry : String
  target_format : Nat
  vertex_buffers : List Nat
deriving DecidableEq

/-- Mirror of struct State; the opaque GPU handles (surface, device, queue)
carry no observable data, the surface's currently applied configuration is
tracked in surfaceConfigured (set by every surface.configure call). -/
structure State where
  surface_config : SurfaceConfiguration
  surfaceConfigured : SurfaceConfiguration
  size : PhysicalSize
  pipeline : RenderPipeline
deriving DecidableEq

/-- Mirror of winit's PhysicalKey as used by the program: the escape key is
the only one inspected, all other key codes are opaque. -/
inductive PhysicalKey
  | escape
  | other (code : Nat)
deriving DecidableEq

/-- Mirror of winit's KeyEvent, restricted to the fields the program reads:
event.state.is_pressed() and event.physical_key. -/
structure KeyEvent where
  pressed : Bool
  physical_key : PhysicalKey
deriving DecidableEq

/-- Mirror of wgpu::SurfaceError variants. -/
inductive SurfaceError
  | timeout
  | outdated
  | lost
  | outOfMemory
deriving DecidableEq

/-- Mirror of wgpu::Color; the f64 literals 0.3, 0.5, 0.9, 1.0 of the
source are carried exactly as rationals. -/
structure Color where
  r : Rat
  g : Rat
  b : Rat
  a : Rat
deriving DecidableEq

/-- One draw call recorded on a render pass: the vertex range and the
instance range (render_pass.draw(0..3, 0..1)). -/
structure DrawCall where
  vertices : Nat × Nat
  instances : Nat × Nat
deriving DecidableEq

/-- The commands the program could record on a render pass; the source
only ever records setPipeline and draw. -/
inductive PassCmd
  | setPipeline (p : RenderPipeline)
  | setVertexBuffer (slot : Nat)
  | setIndexBuffer
  | draw (d : DrawCall)
deriving DecidableEq

/-- One recorded render pass: the clear colour of its single colour
attachment and the list of commands recorded on it. -/
structure RenderPass where
  clearColor : Color
  cmds : List PassCmd
deriving DecidableEq

/-- Observable effects of one State::render call on the GPU side. -/
structure RenderTrace where
  framesAcquired : Nat
  passes : List RenderPass
  buffersSubmitted : Nat
  presents : Nat
deriving DecidableEq

instance : DecidableEq (Except SurfaceError Unit) := fun a b =>
  match a, b with
  | Except.ok x, Except.ok y =>
      if h : x = y then isTrue (by rw [h]) else isFalse (by intro hc; cases hc; exact h rfl)
  | Except.error x, Except.error y =>
      if h : x = y then isTrue (by rw [h]) else isFalse (by intro hc; cases hc; exact h rfl)
  | Except.ok _, Except.error _ => isFalse (by intro hc; cases hc)
  | Except.error _, Except.ok _ => isFalse (by intro hc; cases hc)

/-- Mirror of State::resize: store the new size, copy width/height into the
stored surface configuration, and reconfigure the surface with it. -/
def State.resize (s : State) (new_size : PhysicalSize) : State :=
  let cfg := { s.surface_config with width := new_size.width, height := new_size.height }
  { s with size := new_size, surface_config := cfg, surfaceConfigured := cfg }

/-- Mirror of State::input: always returns false and touches nothing. -/
def State.input (s : State) (_event : KeyEvent) : Bool × State :=
  (false, s)

/-- Mirror of State::update: a no-op. -/
def State.update (s : State) : State :=
  s

/-- Mirror of State::render. The outcome of surface.get_current_texture()
is an input (the GPU is external); the question-mark operator propagates
its error, and on success the recorded GPU work is returned as a trace. -/
def State.render (s : State) (acquire : Except SurfaceError Unit) :
    Except SurfaceError RenderTrace :=
  match acquire with
  | Except.error e => Except.error e
  | Except.ok _ =>
      Except.ok
        { framesAcquired := 1
          passes :=
            [{ clearColor := { r := (3 : Rat)/10, g := (5 : Rat)/10, b := (9 : Rat)/10, a := 1 }
               cmds := [PassCmd.setPipeline s.pipeline,
                        PassCmd.draw { vertices := (0, 3), instances := (0, 1) }] }]
          buffersSubmitted := 1
          presents := 1 }

/-- Environment for State::new: the window's inner size, whether the three
expect-guarded acquisitions succeed, and the format list that
surface.get_capabilities reports. -/
structure InitEnv where
  innerSize : PhysicalSize
  surfaceOk : Bool
  adapterOk : Bool
  deviceOk : Bool
  formats : List Nat
deriving DecidableEq

/-- The pipeline State::new builds: entry points vert/frag, colour target
format taken from the surface configuration, empty vertex buffer list. -/
def buildPipeline (format : Nat) : RenderPipeline :=
  { vertex_entry := "vert", frag_entry := "frag", target_format := format, vertex_buffers := [] }

/-- Mirror of State::new: none models a panic (a failed expect, or the
indexing formats[0] on an empty list); otherwise the surface configuration
is built from the window size and the first reported format. -/
def State.new (env : InitEnv) : Option State :=
  if !env.surfaceOk then none
  else if !env.adapterOk then none
  else if !env.deviceOk then none
  else
    match env.formats with
    | [] => none
    | f :: _ =>
        let cfg : SurfaceConfiguration :=
          { usage := TextureUsage.renderAttachment
            format := f
            width := env.innerSize.width
            height := env.innerSize.height
            present_mode := PresentMode.fifo
            alpha_mode := CompositeAlphaMode.auto
            view_formats := [f]
            desired_maximum_frame_latency := 2 }
        some
          { surface_config := cfg
            surfaceConfigured := cfg
            size := env.innerSize
            pipeline := buildPipeline f }

/-- The window events the run() loop matches on. Redraw requests carry the
outcome the GPU gives to get_current_texture; scale-factor changes carry
the window.inner_size() the handler reads. Events for another window id
and all unmatched events are the two catch-all constructors. -/
inductive WinEvent
  | resized (size : PhysicalSize)
  | scaleFactorChanged (innerSize : PhysicalSize)
  | closeRequested
  | keyboardInput (ev : KeyEvent)
  | redrawRequested (acquire : Except SurfaceError Unit)
  | otherWindowEvent
  | nonWindowEvent
deriving DecidableEq

/-- Observable actions of one pass through run()'s event handler. -/
inductive Action
  | callResize (sz : PhysicalSize)
  | callInput (ev : KeyEvent)
  | requestRedraw
  | callUpdate
  | callRender
  | logError (e : SurfaceError)
  | exitLoop
deriving DecidableEq

/-- Mirror of the event handler closure in run(): returns the state after
the event, the actions taken, and whether control_flow.exit() was called. -/
def handleEvent (s : State) : WinEvent → State × List Action × Bool
  | WinEvent.resized sz => (s.resize sz, [Action.callResize sz], false)
  | WinEvent.scaleFactorChanged inner => (s.resize inner, [Action.callResize inner], false)
  | WinEvent.closeRequested => (s, [Action.exitLoop], true)
  | WinEvent.keyboardInput ev =>
      let r := s.input ev
      if r.1 then (r.2, [Action.callInput ev, Action.requestRedraw], false)
      else if ev.pressed then
        match ev.physical_key with
        | PhysicalKey.escape => (r.2, [Action.callInput ev, Action.exitLoop], true)
        | PhysicalKey.other _ => (r.2, [Action.callInput ev], false)
      else (r.2, [Action.callInput ev], false)
  | WinEvent.redrawRequested acquire =>
      let s1 := s.update
      match s1.render acquire with
      | Except.ok _ => (s1, [Action.callUpdate, Action.callRender], false)
      | Except.error SurfaceError.lost =>
          (s1.resize s1.size, [Action.callUpdate, Action.callRender, Action.callResize s1.size], false)
      | Except.error SurfaceError.outOfMemory =>
          (s1, [Action.callUpdate, Action.callRender, Action.exitLoop], true)
      | Except.error e => (s1, [Action.callUpdate, Action.callRender, Action.logError e], false)
  | WinEvent.otherWindowEvent => (s, [], false)
  | WinEvent.nonWindowEvent => (s, [], false)

/-- The event loop: dispatch events one at a time until control_flow.exit()
is observed or the stream ends; returns the final state, the concatenated
action trace, and whether exit was requested. -/
def runLoop (s : State) : List WinEvent → State × List Action × Bool
  | [] => (s, [], false)
  | e :: es =>
      let h := handleEvent s e
      if h.2.2 then (h.1, h.2.1, true)
      else
        let t := runLoop h.1 es
        (t.1, h.2.1 ++ t.2.1, t.2.2)

/-- How the process ends as seen from run(): panicked models an expect
failure (or formats[0] on an empty list) during initialization;
exitedNormally is the event loop returning after control_flow.exit(), on
which run() returns and the process exits with code 0; pending means the
event stream ended with the loop still live. -/
inductive ProcessOutcome
  | panicked
  | exitedNormally (s : State) (trace : List Action)
  | pending (s : State) (trace : List Action)
deriving DecidableEq

/-- Mirror of run(): initialize, then drive the event loop. -/
def runModel (env : InitEnv) (events : List WinEvent) : ProcessOutcome :=
  match State.new env with
  | none => ProcessOutcome.panicked
  | some s =>
      let t := runLoop s events
      if t.2.2 then ProcessOutcome.exitedNormally t.1 t.2.1
      else ProcessOutcome.pending t.1 t.2.1

/-- Number of resize calls in an action trace. -/
def countResizes : List Action → Nat
  | [] => 0
  | Action.callResize _ :: t => countResizes t + 1
  | _ :: t => countResizes t

/-- Number of render calls in an action trace. -/
def countRenders : List Action → Nat
  | [] => 0
  | Action.callRender :: t => countRenders t + 1
  | _ :: t => countRenders t

/-- Number of control-flow exits in an action trace. -/
def countExits : List Action → Nat
  | [] => 0
  | Action.exitLoop :: t => countExits t + 1
  | _ :: t => countExits t

/-- True of a pass command that binds a vertex or index buffer. -/
def bindsBuffer : PassCmd → Bool
  | PassCmd.setVertexBuffer _ => true
  | PassCmd.setIndexBuffer => true
  | _ => false

/-- The draw calls recorded on a pass. -/
def passDraws (p : RenderPass) : List DrawCall :=
  p.cmds.filterMap fun c =>
    match c with
    | PassCmd.draw d => some d
    | _ => none

/-- The state-machine operations exposed by State, for reachability. The
render operation carries its acquire outcome; render mutates no field of
State regardless of it. -/
inductive Op
  | opResize (sz : PhysicalSize)
  | opInput (ev : KeyEvent)
  | opUpdate
  | opRender (acquire : Except SurfaceError Unit)

/-- Apply one State operation to the state, keeping only its state effect. -/
def applyOp (s : State) : Op → State
  | Op.opResize sz => s.resize sz
  | Op.opInput ev => (s.input ev).2
  | Op.opUpdate => s.update
  | Op.opRender _ => s

/-- Apply a sequence of State operations left to right. -/
def applyOps (s : State) (ops : List Op) : State :=
  ops.foldl applyOp s

/-- The size/configuration agreement invariant. -/
def sizeInv (s : State) : Prop :=
  s.size.width = s.surface_config.width ∧ s.size.height = s.surface_config.height

/-- A concrete, fully evaluable state for witnesses: the state State::new
produces for an 800x800 window with one reported format. -/
def testConfig : SurfaceConfiguration :=
  { usage := TextureUsage.renderAttachment
    format := 0
    width := 800
    height := 800
    present_mode := PresentMode.fifo
    alpha_mode := CompositeAlphaMode.auto
    view_formats := [0]
    desired_maximum_frame_latency := 2 }

/-- A concrete state for witnesses and counterexamples. -/
def testState : State :=
  { surface_config := testConfig
    surfaceConfigured := testConfig
    size := { width := 800, height := 800 }
    pipeline := buildPipeline 0 }

/-- A concrete, fully evaluable initialization environment: a healthy host
with an 800x800 window and one reported surface format; State.new on it
yields exactly testState. -/
def testEnv : InitEnv :=
  { innerSize := { width := 800, height := 800 }
    surfaceOk := true
    adapterOk := true
    deviceOk := true
    formats := [0] }

/-- Claim C3: for all positive w and h, resize stores exactly w and h in
the surface configuration and exactly the argument in the size field. -/
theorem resize_sets_dimensions (s : State) (w h : Nat) (hw : 0 < w) (hh : 0 < h) :
    (s.resize { width := w, height := h }).surface_config.width = w ∧
    (s.resize { width := w, height := h }).surface_config.height = h ∧
    (s.resize { width := w, height := h }).size = { width := w, height := h } :=
  ⟨rfl, rfl, rfl⟩

/-- Witness for C3 at the concrete size 5x7. -/
theorem resize_sets_dimensions_witness :
    (0 < 5 ∧ 0 < 7) ∧
    (testState.resize { width := 5, height := 7 }).surface_config.width = 5 ∧
    (testState.resize { width := 5, height := 7 }).surface_config.height = 7 ∧
    (testState.resize { width := 5, height := 7 }).size = { width := 5, height := 7 } :=
  ⟨⟨by decide, by decide⟩, resize_sets_dimensions testState 5 7 (by decide) (by decide)⟩

/-- Claim C4: input returns false on every event and every state, and
leaves the state unchanged. -/
theorem input_always_unhandled (s : State) (ev : KeyEvent) :
    (s.input ev).1 = false ∧ (s.input ev).2 = s :=
  ⟨rfl, rfl⟩

/-- Claim C10: resize performs no validation of zero-sized input: a size
with a zero component is stored exactly like any other. -/
theorem resize_accepts_zero (s : State) (sz : PhysicalSize)
    (h : sz.width = 0 ∨ sz.height = 0) :
    (s.resize sz).size = sz ∧
    (s.resize sz).surface_config.width = sz.width ∧
    (s.resize sz).surface_config.height = sz.height :=
  ⟨rfl, rfl, rfl⟩

/-- Witness for C10 at the concrete degenerate size 0x600. -/
theorem resize_accepts_zero_witness :
    (PhysicalSize.width { width := 0, height := 600 } = 0 ∨
     PhysicalSize.height { width := 0, height := 600 } = 0) ∧
    (testState.resize { width := 0, height := 600 }).size = { width := 0, height := 600 } ∧
    (testState.resize { width := 0, height := 600 }).surface_config.width = 0 ∧
    (testState.resize { width := 0, height := 600 }).surface_config.height = 600 :=
  ⟨Or.inl rfl, resize_accepts_zero testState { width := 0, height := 600 } (Or.inl rfl)⟩

/-- Claim C5: on the success path render acquires exactly one frame,
records exactly one render pass clearing to (0.3, 0.5, 0.9, 1.0), issues
exactly one draw of vertices 0..3 and instances 0..1, binds no vertex or
index buffer, submits exactly one command buffer, presents once, and
returns Ok. -/
theorem render_success_trace (s : State) :
    ∃ tr, s.render (Except.ok ()) = Except.ok tr ∧
      tr.framesAcquired = 1 ∧
      tr.passes.length = 1 ∧
      tr.passes.map RenderPass.clearColor =
        [{ r := (3 : Rat)/10, g := (5 : Rat)/10, b := (9 : Rat)/10, a := 1 }] ∧
      tr.passes.map passDraws = [[{ vertices := (0, 3), instances := (0, 1) }]] ∧
      (tr.passes.all fun p => p.cmds.all fun c => !bindsBuffer c) = true ∧
      tr.buffersSubmitted = 1 ∧
      tr.presents = 1 :=
  ⟨_, rfl, rfl, rfl, rfl, rfl, rfl, rfl, rfl⟩

/-- Claim C6: initialization picks the first format the surface reports,
and panics (returns none in the model) when the reported list is empty. -/
theorem surface_format_first (env : InitEnv)
    (hs : env.surfaceOk = true) (ha : env.adapterOk = true) (hd : env.deviceOk = true) :
    (∀ f rest, env.formats = f :: rest →
      Option.map (fun st => st.surface_config.format) (State.new env) = some f) ∧
    (env.formats = [] → State.new env = none) := by
  constructor
  · intro f rest hf
    simp [State.new, hs, ha, hd, hf]
  · intro hf
    simp [State.new, hs, ha, hd, hf]

/-- Witness for C6: a two-element format list picks the head, and an empty
format list aborts. -/
theorem surface_format_first_witness :
    Option.map (fun st => st.surface_config.format)
      (State.new { testEnv with formats := [10, 20] }) = some 10 ∧
    State.new { testEnv with formats := [] } = none :=
  ⟨(surface_format_first { testEnv with formats := [10, 20] } rfl rfl rfl).1 10 [20] rfl,
   (surface_format_first { testEnv with formats := [] } rfl rfl rfl).2 rfl⟩

/-- Claim C2: on a Lost surface error the handler issues exactly one
corrective resize whose argument is the size stored before the error, the
surface configuration afterwards carries that size, and the loop continues
into the remaining events. -/
theorem lost_error_recovery (s : State) (rest : List WinEvent) :
    handleEvent s (WinEvent.redrawRequested (Except.error SurfaceError.lost)) =
      (s.resize s.size,
       [Action.callUpdate, Action.callRender, Action.callResize s.size], false) ∧
    countResizes [Action.callUpdate, Action.callRender, Action.callResize s.size] = 1 ∧
    (s.resize s.size).surface_config.width = s.size.width ∧
    (s.resize s.size).surface_config.height = s.size.height ∧
    runLoop s (WinEvent.redrawRequested (Except.error SurfaceError.lost) :: rest) =
      (let t := runLoop (s.resize s.size) rest
       (t.1, [Action.callUpdate, Action.callRender, Action.callResize s.size] ++ t.2.1, t.2.2)) :=
  ⟨rfl, rfl, rfl, rfl, rfl⟩

/-- Claim C7: a surface error other than Lost and OutOfMemory is logged,
the frame is skipped, the state (size and surface configuration) is
unchanged, no resize and no exit happen, and the loop continues into the
remaining events. -/
theorem other_error_skips_frame (s : State) (e : SurfaceError) (rest : List WinEvent)
    (hl : e ≠ SurfaceError.lost) (ho : e ≠ SurfaceError.outOfMemory) :
    handleEvent s (WinEvent.redrawRequested (Except.error e)) =
      (s, [Action.callUpdate, Action.callRender, Action.logError e], false) ∧
    countResizes [Action.callUpdate, Action.callRender, Action.logError e] = 0 ∧
    countExits [Action.callUpdate, Action.callRender, Action.logError e] = 0 ∧
    runLoop s (WinEvent.redrawRequested (Except.error e) :: rest) =
      (let t := runLoop s rest
       (t.1, [Action.callUpdate, Action.callRender, Action.logError e] ++ t.2.1, t.2.2)) := by
  cases e with
  | lost => exact absurd rfl hl
  | outOfMemory => exact absurd rfl ho
  | timeout => exact ⟨rfl, rfl, rfl, rfl⟩
  | outdated => exact ⟨rfl, rfl, rfl, rfl⟩

/-- Witness for C7: a Timeout error at the concrete test state is logged
and skipped with the state unchanged. -/
theorem other_error_skips_frame_witness :
    (SurfaceError.timeout ≠ SurfaceError.lost ∧
     SurfaceError.timeout ≠ SurfaceError.outOfMemory) ∧
    handleEvent testState (WinEvent.redrawRequested (Except.error SurfaceError.timeout)) =
      (testState,
       [Action.callUpdate, Action.callRender, Action.logError SurfaceError.timeout], false) :=
  ⟨⟨by decide, by decide⟩,
   (other_error_skips_frame testState SurfaceError.timeout [] (by decide) (by decide)).1⟩

/-- Counterexample to claim C1 as stated: on an OutOfMemory surface error
the process does not terminate abnormally — control_flow.exit() is called,
the event loop returns, and run() returns normally (exit code 0), exactly
as for a window-close request; the outcome is exitedNormally, not
panicked. -/
theorem oom_not_abnormal_counterexample :
    runModel testEnv [WinEvent.redrawRequested (Except.error SurfaceError.outOfMemory)] =
      ProcessOutcome.exitedNormally testState
        [Action.callUpdate, Action.callRender, Action.exitLoop] ∧
    runModel testEnv [WinEvent.redrawRequested (Except.error SurfaceError.outOfMemory)] ≠
      ProcessOutcome.panicked := by
  exact ⟨rfl, by decide⟩

/-- Amended claim C1: when render fails with OutOfMemory the event loop
exits normally (the same code-0 termination as a window-close request),
exactly one render call was made, and no further rendering calls are
performed after the error is observed (the remaining events are never
dispatched). -/
theorem oom_exits_normally (env : InitEnv) (s : State) (rest : List WinEvent)
    (hinit : State.new env = some s) :
    runModel env (WinEvent.redrawRequested (Except.error SurfaceError.outOfMemory) :: rest) =
      ProcessOutcome.exitedNormally s
        [Action.callUpdate, Action.callRender, Action.exitLoop] ∧
    countRenders [Action.callUpdate, Action.callRender, Action.exitLoop] = 1 ∧
    countExits [Action.callUpdate, Action.callRender, Action.exitLoop] = 1 := by
  refine ⟨?_, rfl, rfl⟩
  unfold runModel
  rw [hinit]
  rfl

/-- Witness for the amended C1: even with a further redraw request queued
after the OutOfMemory error, the loop exits normally having rendered only
once. -/
theorem oom_exits_normally_witness :
    runModel testEnv
        [WinEvent.redrawRequested (Except.error SurfaceError.outOfMemory),
         WinEvent.redrawRequested (Except.ok ())] =
      ProcessOutcome.exitedNormally testState
        [Action.callUpdate, Action.callRender, Action.exitLoop] :=
  (oom_exits_normally testEnv testState [WinEvent.redrawRequested (Except.ok ())] rfl).1

/-- Claim C8: a window-close request or a pressed escape key makes the
loop exit exactly once, no later event is dispatched (the run is the same
as if the stream ended at that event), and the process outcome is a
normal termination. -/
theorem close_or_escape_exits (s : State) (ev : WinEvent) (rest : List WinEvent)
    (h : ev = WinEvent.closeRequested ∨
         ev = WinEvent.keyboardInput { pressed := true, physical_key := PhysicalKey.escape }) :
    runLoop s (ev :: rest) = runLoop s [ev] ∧
    countExits (runLoop s (ev :: rest)).2.1 = 1 ∧
    (runLoop s (ev :: rest)).2.2 = true ∧
    (∀ env, State.new env = some s →
      runModel env (ev :: rest) =
        ProcessOutcome.exitedNormally (runLoop s [ev]).1 (runLoop s [ev]).2.1) := by
  rcases h with h | h <;> subst h <;>
    refine ⟨rfl, rfl, rfl, ?_⟩ <;> intro env henv <;>
    (unfold runModel; rw [henv]; rfl)

/-- Witness for C8: a close request followed by a queued event exits once
and the queued event is never dispatched. -/
theorem close_or_escape_exits_witness :
    runLoop testState [WinEvent.closeRequested, WinEvent.nonWindowEvent] =
      runLoop testState [WinEvent.closeRequested] ∧
    countExits (runLoop testState [WinEvent.closeRequested, WinEvent.nonWindowEvent]).2.1 = 1 ∧
    runModel testEnv [WinEvent.closeRequested, WinEvent.nonWindowEvent] =
      ProcessOutcome.exitedNormally (runLoop testState [WinEvent.closeRequested]).1
        (runLoop testState [WinEvent.closeRequested]).2.1 :=
  ⟨(close_or_escape_exits testState WinEvent.closeRequested [WinEvent.nonWindowEvent]
      (Or.inl rfl)).1,
   (close_or_escape_exits testState WinEvent.closeRequested [WinEvent.nonWindowEvent]
      (Or.inl rfl)).2.1,
   (close_or_escape_exits testState WinEvent.closeRequested [WinEvent.nonWindowEvent]
      (Or.inl rfl)).2.2.2 testEnv rfl⟩

/-- Claim C9: every state reachable from a successful initialization by
resize, input, update and render operations keeps the stored size equal to
the surface configuration's width/height pair. -/
theorem size_config_invariant (env : InitEnv) (s : State) (ops : List Op)
    (hinit : State.new env = some s) :
    sizeInv (applyOps s ops) := by
  have hstep : ∀ t : State, sizeInv t → ∀ o : Op, sizeInv (applyOp t o) := by
    intro t ht o
    cases o with
    | opResize sz => exact ⟨rfl, rfl⟩
    | opInput ev => exact ht
    | opUpdate => exact ht
    | opRender a => exact ht
  have hbase : sizeInv s := by
    unfold State.new at hinit
    cases hs : env.surfaceOk <;> rw [hs] at hinit <;> simp at hinit
    cases ha : env.adapterOk <;> rw [ha] at hinit <;> simp at hinit
    cases hd : env.deviceOk <;> rw [hd] at hinit <;> simp at hinit
    cases hf : env.formats with
    | nil => rw [hf] at hinit; simp at hinit
    | cons f t =>
        rw [hf] at hinit
        simp at hinit
        rw [← hinit]
        exact ⟨rfl, rfl⟩
  have hind : ∀ (l : List Op) (t : State), sizeInv t → sizeInv (applyOps t l) := by
    intro l
    induction l with
    | nil => intro t ht; exact ht
    | cons o rest ih => intro t ht; exact ih (applyOp t o) (hstep t ht o)
  exact hind ops s hbase

/-- Witness for C9: from the concrete healthy environment, a resize to
10x20 followed by an input, an update and a failed render keeps the
invariant. -/
theorem size_config_invariant_witness :
    sizeInv (applyOps testState
      [Op.opResize { width := 10, height := 20 },
       Op.opInput { pressed := false, physical_key := PhysicalKey.other 3 },
       Op.opUpdate,
       Op.opRender (Except.error SurfaceError.timeout)]) :=
  size_config_invariant testEnv testState
    [Op.opResize { width := 10, height := 20 },
     Op.opInput { pressed := false, physical_key := PhysicalKey.other 3 },
     Op.opUpdate,
     Op.opRender (Except.error SurfaceError.timeout)] rfl

end WgpuExp
